import Mathlib

/-!
Verification of the ESP32 desktop-tool backend: device discovery and
classification, the bootloader probe client, the flash-erase operation, and
the persistent monitor session.  The definitions below are a shallow
embedding of the Rust sources in `src-tauri/src` (`lib.rs`,
`esp_interaction.rs`, `models.rs`).  External effects (serial-port
enumeration, the transport open call, the bootloader collaborator's
queries) are supplied as explicit environment records; the control flow and
data flow of each function is transcribed from the source.
-/

/-! ## String helpers

`containsSubstr s pat` models Rust `str::contains` (substring test), used by
`connect_and_get_info` on the debug-formatted flasher state.  `toHex4`
models the Rust format specifier producing four upper-case hex digits, as
applied to a 16-bit vendor/product id. -/

def strStartsWith : List Char → List Char → Bool
  | [], _ => true
  | _ :: _, [] => false
  | p :: ps, c :: cs => p == c && strStartsWith ps cs

def strHasSub (pat : List Char) : List Char → Bool
  | [] => strStartsWith pat []
  | c :: cs => strStartsWith pat (c :: cs) || strHasSub pat cs

def containsSubstr (s pat : String) : Bool :=
  strHasSub pat.toList s.toList

def hexDigitChar (n : Nat) : Char :=
  (['0', '1', '2', '3', '4', '5', '6', '7', '8', '9',
    'A', 'B', 'C', 'D', 'E', 'F']).getD n '0'

def toHex4 (n : Nat) : String :=
  String.mk [hexDigitChar (n / 4096 % 16), hexDigitChar (n / 256 % 16),
    hexDigitChar (n / 16 % 16), hexDigitChar (n % 16)]

/-! ## Data model (`models.rs` and the `serialport` / `nusb` descriptors) -/

/-- `serialport::UsbPortInfo`: the USB descriptor attached to a serial port. -/
structure UsbPortInfo where
  vid : Nat
  pid : Nat
  serial_number : Option String
  manufacturer : Option String
  product : Option String
  deriving DecidableEq, Repr

/-- `serialport::SerialPortType`. -/
inductive SerialPortType where
  | UsbPort (info : UsbPortInfo)
  | PciPort
  | BluetoothPort
  | Unknown
  deriving DecidableEq, Repr

/-- `serialport::SerialPortInfo`: one enumerated port. -/
structure SerialPortInfo where
  port_name : String
  port_type : SerialPortType
  deriving DecidableEq, Repr

/-- A raw USB device as reported by `nusb::list_devices()`. -/
structure UsbDevice where
  vendor_id : Nat
  product_id : Nat
  product_string : Option String
  serial_number : Option String
  deriving DecidableEq, Repr

/-- `DeviceStatus` from `models.rs`. -/
structure DeviceStatus where
  code : String
  message : String
  port_name : Option String
  product_name : Option String
  serial_number : Option String
  vid_pid : Option String
  connection_type : Option String
  deriving DecidableEq, Repr

/-- `ChipDetails` as constructed by `connect_and_get_info` in
`esp_interaction.rs`: the record literal there fills seven fields,
including `crystal_frequency`.  Note that the struct declaration in
`models.rs` lists only six fields — it omits `crystal_frequency`; the two
declarations are compared in `chipDetailsFieldsModels` /
`chipDetailsFieldsProbe` below. -/
structure ChipDetails where
  chip_model : Option String
  mac_address : Option String
  flash_size : Option String
  features : Option String
  crystal_frequency : Option String
  chip_revision : Option String
  error : Option String
  deriving DecidableEq, Repr

/-- Field names of `struct ChipDetails` as declared in `models.rs`
(lines 14-22), in declaration order. -/
def chipDetailsFieldsModels : List String :=
  ["chip_model", "mac_address", "flash_size", "features",
   "chip_revision", "error"]

/-- Field names of the `ChipDetails` record literals built by
`connect_and_get_info` in `esp_interaction.rs`, in the order of the final
literal (lines 130-138). -/
def chipDetailsFieldsProbe : List String :=
  ["chip_model", "mac_address", "flash_size", "features",
   "crystal_frequency", "chip_revision", "error"]

/-! ## Discovery & classifier (`check_device_status`, `lib.rs` 13-71) -/

/-- The recognized ESP32 USB vendor ids, in source order. -/
def recognizedVids : List Nat := [0x10C4, 0x1A86, 0x303A, 0x0403]

/-- The serial-port scan loop of `check_device_status`: first port whose
type is `UsbPort` with a recognized vendor id wins. -/
def findSerial : List SerialPortInfo → Option DeviceStatus
  | [] => none
  | p :: rest =>
    match p.port_type with
    | SerialPortType.UsbPort info =>
      if recognizedVids.contains info.vid then
        some
          { code := "ok"
            message := "Connected (" ++ p.port_name ++ ")"
            port_name := some p.port_name
            product_name := info.product
            serial_number := info.serial_number
            vid_pid := some (toHex4 info.vid ++ ":" ++ toHex4 info.pid)
            connection_type :=
              some (if info.vid == 0x303A then "native_usb" else "uart_bridge") }
      else findSerial rest
    | _ => findSerial rest

/-- The raw-USB fallback loop of `check_device_status`: first raw device
with a recognized vendor id wins. -/
def findUsb : List UsbDevice → Option DeviceStatus
  | [] => none
  | d :: rest =>
    if recognizedVids.contains d.vendor_id then
      some
        { code := "missing_driver"
          message := "Driver Missing"
          port_name := none
          product_name := d.product_string
          serial_number := d.serial_number
          vid_pid := some (toHex4 d.vendor_id ++ ":" ++ toHex4 d.product_id)
          connection_type :=
            some (if d.vendor_id == 0x303A then "native_usb" else "uart_bridge") }
    else findUsb rest

/-- Environment of one `check_device_status` call: the outcomes of the two
enumerations.  `none` models the `Err` case of the underlying call, which
the source skips over with `if let Ok(..)`. -/
structure DiscoveryEnv where
  available_ports : Option (List SerialPortInfo)
  usb_devices : Option (List UsbDevice)

/-- `check_device_status` (`lib.rs` 13-71): serial scan first, then raw-USB
fallback, then the `none` result. -/
def check_device_status (env : DiscoveryEnv) : DeviceStatus :=
  match (match env.available_ports with
         | some ports => findSerial ports
         | none => none) with
  | some s => s
  | none =>
    match (match env.usb_devices with
           | some ds => findUsb ds
           | none => none) with
    | some s => s
    | none =>
      { code := "none"
        message := "Disconnected"
        port_name := none
        product_name := none
        serial_number := none
        vid_pid := none
        connection_type := none }

/-- A port matches the serial scan iff it is a USB port with a recognized
vendor id. -/
def serialRecognized (p : SerialPortInfo) : Bool :=
  match p.port_type with
  | SerialPortType.UsbPort info => recognizedVids.contains info.vid
  | _ => false

/-- A raw USB device matches the fallback scan iff its vendor id is
recognized. -/
def usbRecognized (d : UsbDevice) : Bool :=
  recognizedVids.contains d.vendor_id

/-! ## Chip probe client (`connect_and_get_info`, `esp_interaction.rs` 6-139) -/

/-- The zeroed `UsbPortInfo` fallback used by both `connect_and_get_info`
and `erase_flash` when the port descriptor cannot be re-resolved. -/
def zeroUsbPortInfo : UsbPortInfo :=
  { vid := 0, pid := 0, serial_number := none, manufacturer := none,
    product := none }

/-- Step 2 of both the probe and the erase: re-resolve the USB descriptor
for the given port name from a fresh enumeration, falling back to the
zeroed descriptor. -/
def resolvePortInfo (ports : List SerialPortInfo) (port_name : String) :
    UsbPortInfo :=
  match ports.find? (fun p => p.port_name == port_name) with
  | some p =>
    match p.port_type with
    | SerialPortType.UsbPort info => info
    | _ => zeroUsbPortInfo
  | none => zeroUsbPortInfo

/-- The result of the bootloader collaborator's `device_info` query: a MAC
address (already rendered, optional) and a feature list (each entry the
debug rendering of one feature flag). -/
structure DeviceInfo where
  mac_address : Option String
  features : List String
  deriving DecidableEq, Repr

/-- The post-handshake flasher session: the outcomes of every query
`connect_and_get_info` can issue against it, plus the debug rendering of
the flasher state that the flash-size sniffing inspects. -/
structure FlasherState where
  chipName : String
  debugInfo : String
  device_info : Except String DeviceInfo
  revision : Except String (Nat × Nat)
  xtal_frequency : Except String Nat
  deriving Repr

/-- Environment of one probe (or erase) call: the outcome of
`open_native`, the fresh port enumeration of step 2, and the outcome of
`Flasher::connect` (carrying the session on success). -/
structure ProbeEnv where
  openNative : Except String Unit
  available_ports : List SerialPortInfo
  flasherConnect : Except String FlasherState

/-- `connect_and_get_info` (`esp_interaction.rs` 6-139).  Open failure and
handshake failure each return an error-only `ChipDetails`; after a
successful handshake every query degrades per-field. -/
def connect_and_get_info (env : ProbeEnv) (port_name : String) : ChipDetails :=
  match env.openNative with
  | Except.error e =>
    { chip_model := none, mac_address := none, flash_size := none,
      features := none, crystal_frequency := none, chip_revision := none,
      error := some ("Serial Error: " ++ e) }
  | Except.ok _ =>
    let _port_info := resolvePortInfo env.available_ports port_name
    match env.flasherConnect with
    | Except.error e =>
      { chip_model := none, mac_address := none, flash_size := none,
        features := none, crystal_frequency := none, chip_revision := none,
        error := some ("Connect Error: " ++ e) }
    | Except.ok f =>
      let debug_info := f.debugInfo
      let chip_model := some f.chipName
      let flash_size :=
        if containsSubstr debug_info "_16Mb" then some "16 MB"
        else if containsSubstr debug_info "_8Mb" then some "8 MB"
        else if containsSubstr debug_info "_4Mb" then some "4 MB"
        else none
      let macFeats :=
        match f.device_info with
        | Except.ok info =>
          (info.mac_address, some (String.intercalate ", " info.features))
        | Except.error _ => (none, none)
      let chip_revision :=
        match f.revision with
        | Except.ok rev => some ("v" ++ toString rev.1 ++ "." ++ toString rev.2)
        | Except.error _ => none
      let crystal_frequency :=
        match f.xtal_frequency with
        | Except.ok freq => some (toString freq)
        | Except.error _ => none
      { chip_model := chip_model
        mac_address := macFeats.1
        flash_size := flash_size
        features := macFeats.2
        crystal_frequency := crystal_frequency
        chip_revision := chip_revision
        error := none }

/-! ## Erase operation (`erase_flash`, `esp_interaction.rs` 141-197) -/

/-- The erase-capable flasher session: the outcome of the one erase
command. -/
structure EraseFlasher where
  erase_flash : Except String Unit
  deriving Repr

/-- Environment of one erase call, mirroring `ProbeEnv`. -/
structure EraseEnv where
  openNative : Except String Unit
  available_ports : List SerialPortInfo
  flasherConnect : Except String EraseFlasher

/-- `erase_flash` (`esp_interaction.rs` 141-197): open, resolve the
descriptor, handshake, erase; each failing phase is reported with its own
prefix via the three `map_err` calls. -/
def erase_flash (env : EraseEnv) (port_name : String) :
    Except String String :=
  match env.openNative with
  | Except.error e => Except.error ("Serial Error: " ++ e)
  | Except.ok _ =>
    let _port_info := resolvePortInfo env.available_ports port_name
    match env.flasherConnect with
    | Except.error e => Except.error ("Connect Error: " ++ e)
    | Except.ok f =>
      match f.erase_flash with
      | Except.error e => Except.error ("Erase Error: " ++ e)
      | Except.ok _ => Except.ok "Flash Memory Erased Successfully"

/-! ## Monitor session (`lib.rs` 135-272)

The shared `SerialState` holds the optional transport and the run flag.
The background loop spawned by `monitor_connect` is embedded as a
single-iteration step function `loopIter` over that state: one iteration
reads the shared flag at the top, then performs the read / reconnect /
sleep logic of the `loop` body.  Foreground calls (`monitor_disconnect`,
`monitor_send`) are plain state transformers. -/

/-- An open serial transport handle.  Its identity is all the claims need;
the id distinguishes the original transport from a reopened one. -/
structure Transport where
  id : Nat
  deriving DecidableEq, Repr

/-- `SerialState` (`lib.rs` 135-138): the process-wide monitor session
record. -/
structure SerialState where
  port : Option Transport
  should_run : Bool
  deriving DecidableEq, Repr

/-- Outcome of the non-blocking `port.read` attempted by one iteration:
`got n data` is `Ok(n)` with `data` the permissively decoded bytes,
`timedOut` is the ignored timeout error, `fatal` any other read error. -/
inductive ReadOutcome where
  | got (n : Nat) (data : String)
  | timedOut
  | fatal
  deriving Repr

/-- Environment of one loop iteration: the read outcome (consulted only
when a transport is present) and the outcome of `serialport::new(..).open()`
as a function of the port name and baud rate the reconnect path passes
to it. -/
structure IterEnv where
  read : ReadOutcome
  reopen : String → Nat → Option Transport

/-- What one loop iteration did: the shared state afterwards, whether the
loop exited, the payload of the `serial-read` notification if one was
emitted, and the sleep (ms) performed: 500 on the backoff path, 5 on the
normal path, 0 when exiting. -/
structure IterResult where
  state : SerialState
  exited : Bool
  emitted : Option String
  sleep : Nat
  deriving Repr

/-- One iteration of the background loop in `monitor_connect`
(`lib.rs` 177-244).  `name` and `baud` are the values captured by the
spawned thread. -/
def loopIter (name : String) (baud : Nat) (st : SerialState)
    (env : IterEnv) : IterResult :=
  if st.should_run = false then
    { state := st, exited := true, emitted := none, sleep := 0 }
  else
    match st.port with
    | some _ =>
      match env.read with
      | ReadOutcome.got n data =>
        if n > 0 then
          { state := st, exited := false, emitted := some data, sleep := 5 }
        else
          { state := st, exited := false, emitted := none, sleep := 5 }
      | ReadOutcome.timedOut =>
        { state := st, exited := false, emitted := none, sleep := 5 }
      | ReadOutcome.fatal =>
        match env.reopen name baud with
        | some t2 =>
          { state := { st with port := some t2 }, exited := false,
            emitted := none, sleep := 500 }
        | none =>
          { state := { st with port := none }, exited := false,
            emitted := none, sleep := 500 }
    | none =>
      match env.reopen name baud with
      | some t2 =>
        { state := { st with port := some t2 }, exited := false,
          emitted := none, sleep := 500 }
      | none =>
        { state := st, exited := false, emitted := none, sleep := 500 }

/-- Foreground `monitor_connect` (`lib.rs` 141-250): on a successful open
it sets the run flag, stores the transport and reports success; on an open
failure it leaves the state alone and reports the error. -/
def monitor_connect (st : SerialState) (openResult : Except String Transport) :
    SerialState × Except String String :=
  match openResult with
  | Except.error e => (st, Except.error ("Failed to open port: " ++ e))
  | Except.ok t =>
    ({ port := some t, should_run := true }, Except.ok "Connected")

/-- `monitor_disconnect` (`lib.rs` 252-258): clears the run flag and the
stored transport, always succeeds. -/
def monitor_disconnect (st : SerialState) :
    SerialState × Except String String :=
  let st1 := { st with should_run := false }
  let st2 := { st1 with port := none }
  (st2, Except.ok "Disconnected")

/-- `monitor_send` (`lib.rs` 261-272).  The third component records the
bytes handed to `write_all`, if the write was attempted: the source
appends a CR-LF line terminator before writing. -/
def monitor_send (st : SerialState) (data : String)
    (writeResult : Except String Unit) :
    SerialState × Except String String × Option String :=
  match st.port with
  | some _ =>
    let data_bytes := data ++ "\x0d\x0a"
    match writeResult with
    | Except.ok _ => (st, Except.ok "Sent", some data_bytes)
    | Except.error e => (st, Except.error e, some data_bytes)
  | none => (st, Except.error "Not connected", none)

/-! ## Helper lemmas about the discovery scans -/

/-- A port the serial scan does not recognize is skipped. -/
theorem findSerial_cons_skip (p : SerialPortInfo) (rest : List SerialPortInfo)
    (h : serialRecognized p = false) :
    findSerial (p :: rest) = findSerial rest := by
  obtain ⟨name, ptype⟩ := p
  cases ptype with
  | UsbPort info =>
    simp only [serialRecognized] at h
    simp only [findSerial]
    simp at h
    simp [h]
  | PciPort => simp [findSerial]
  | BluetoothPort => simp [findSerial]
  | Unknown => simp [findSerial]

/-- A whole unrecognized segment is skipped by the serial scan. -/
theorem findSerial_append_skip (pre rest : List SerialPortInfo)
    (h : ∀ q ∈ pre, serialRecognized q = false) :
    findSerial (pre ++ rest) = findSerial rest := by
  induction pre with
  | nil => rfl
  | cons q qs ih =>
    rw [List.cons_append, findSerial_cons_skip q (qs ++ rest) (h q (by simp)),
      ih (fun r hr => h r (by simp [hr]))]

/-- A list of unrecognized ports produces no serial-scan match. -/
theorem findSerial_eq_none (ports : List SerialPortInfo)
    (h : ∀ q ∈ ports, serialRecognized q = false) :
    findSerial ports = none := by
  have h2 := findSerial_append_skip ports [] h
  simpa using h2

/-- The serial scan stops at a recognized USB port and classifies it. -/
theorem findSerial_cons_hit (p : SerialPortInfo) (rest : List SerialPortInfo)
    (info : UsbPortInfo) (hp : p.port_type = SerialPortType.UsbPort info)
    (hv : info.vid ∈ recognizedVids) :
    findSerial (p :: rest) =
      some
        { code := "ok"
          message := "Connected (" ++ p.port_name ++ ")"
          port_name := some p.port_name
          product_name := info.product
          serial_number := info.serial_number
          vid_pid := some (toHex4 info.vid ++ ":" ++ toHex4 info.pid)
          connection_type :=
            some (if info.vid == 0x303A then "native_usb" else "uart_bridge") } := by
  obtain ⟨name, ptype⟩ := p
  simp only at hp
  subst hp
  simp [findSerial, hv]

/-- A raw USB device the fallback scan does not recognize is skipped. -/
theorem findUsb_cons_skip (d : UsbDevice) (rest : List UsbDevice)
    (h : usbRecognized d = false) :
    findUsb (d :: rest) = findUsb rest := by
  simp only [usbRecognized] at h
  simp at h
  simp [findUsb, h]

/-- A whole unrecognized segment is skipped by the fallback scan. -/
theorem findUsb_append_skip (pre rest : List UsbDevice)
    (h : ∀ q ∈ pre, usbRecognized q = false) :
    findUsb (pre ++ rest) = findUsb rest := by
  induction pre with
  | nil => rfl
  | cons q qs ih =>
    rw [List.cons_append, findUsb_cons_skip q (qs ++ rest) (h q (by simp)),
      ih (fun r hr => h r (by simp [hr]))]

/-- A list of unrecognized raw USB devices produces no fallback match. -/
theorem findUsb_eq_none (ds : List UsbDevice)
    (h : ∀ q ∈ ds, usbRecognized q = false) :
    findUsb ds = none := by
  have h2 := findUsb_append_skip ds [] h
  simpa using h2

/-- The fallback scan stops at a recognized raw USB device. -/
theorem findUsb_cons_hit (d : UsbDevice) (rest : List UsbDevice)
    (hv : d.vendor_id ∈ recognizedVids) :
    findUsb (d :: rest) =
      some
        { code := "missing_driver"
          message := "Driver Missing"
          port_name := none
          product_name := d.product_string
          serial_number := d.serial_number
          vid_pid := some (toHex4 d.vendor_id ++ ":" ++ toHex4 d.product_id)
          connection_type :=
            some (if d.vendor_id == 0x303A then "native_usb" else "uart_bridge") } := by
  simp [findUsb, hv]

/-- When the serial enumeration yields no match (or failed), the whole call
reduces to the raw-USB stage. -/
theorem check_device_status_serial_none (env : DiscoveryEnv)
    (hnos : env.available_ports = none ∨
      ∃ ports, env.available_ports = some ports ∧
        ∀ q ∈ ports, serialRecognized q = false) :
    check_device_status env =
      match (match env.usb_devices with
             | some ds => findUsb ds
             | none => none) with
      | some s => s
      | none =>
        { code := "none"
          message := "Disconnected"
          port_name := none
          product_name := none
          serial_number := none
          vid_pid := none
          connection_type := none } := by
  rcases hnos with h | ⟨ports, hp, hall⟩
  · unfold check_device_status
    rw [h]
  · have hn : findSerial ports = none := findSerial_eq_none ports hall
    unfold check_device_status
    rw [hp]
    simp only [hn]

/-- If the serial enumeration succeeded and its scan matched, the call
returns that classification. -/
theorem check_device_status_serial_hit (env : DiscoveryEnv)
    (ports : List SerialPortInfo) (hports : env.available_ports = some ports)
    (s : DeviceStatus) (h : findSerial ports = some s) :
    check_device_status env = s := by
  unfold check_device_status
  rw [hports]
  simp only [h]

/-! ## Claims about the discovery classifier -/

/-- Claim C2: `check_device_status` scans the enumerated serial ports in OS
order and, at the first port whose USB vendor id is in the recognized set,
returns code "ok", that port's name, and connection type "native_usb" if
and only if the vendor id equals 0x303A, otherwise "uart_bridge". -/
theorem check_device_status_first_recognized_port
    (env : DiscoveryEnv) (pre rest : List SerialPortInfo)
    (p : SerialPortInfo) (info : UsbPortInfo)
    (hports : env.available_ports = some (pre ++ p :: rest))
    (hpre : ∀ q ∈ pre, serialRecognized q = false)
    (htype : p.port_type = SerialPortType.UsbPort info)
    (hvid : info.vid ∈ recognizedVids) :
    (check_device_status env).code = "ok" ∧
    (check_device_status env).port_name = some p.port_name ∧
    (check_device_status env).connection_type =
      some (if info.vid == 0x303A then "native_usb" else "uart_bridge") := by
  have hall := (findSerial_append_skip pre (p :: rest) hpre).trans
    (findSerial_cons_hit p rest info htype hvid)
  have hcds := check_device_status_serial_hit env _ hports _ hall
  rw [hcds]
  exact ⟨rfl, rfl, rfl⟩

/-- Concrete instance of C2: a native-USB ESP32-S3 on "COM5" behind one
unrecognized port. -/
def comInfo : UsbPortInfo :=
  { vid := 0x303A, pid := 0x1001, serial_number := none,
    manufacturer := none, product := some "ESP32-S3" }

def comPort : SerialPortInfo :=
  { port_name := "COM5", port_type := SerialPortType.UsbPort comInfo }

def otherPort : SerialPortInfo :=
  { port_name := "COM1", port_type := SerialPortType.PciPort }

def discEnvC2 : DiscoveryEnv :=
  { available_ports := some [otherPort, comPort], usb_devices := none }

theorem check_device_status_first_recognized_port_witness :
    (check_device_status discEnvC2).code = "ok" ∧
    (check_device_status discEnvC2).port_name = some "COM5" ∧
    (check_device_status discEnvC2).connection_type = some "native_usb" := by
  have h := check_device_status_first_recognized_port discEnvC2
    [otherPort] [] comPort comInfo rfl (by decide) rfl (by decide)
  refine ⟨h.1, h.2.1, ?_⟩
  rw [h.2.2]
  decide

/-- Claim C6: with no recognized serial port (or a failed serial
enumeration), `check_device_status` falls back to raw USB enumeration: the
first recognized raw device yields "missing_driver" with no port name and
the same native/bridge rule; no recognized device (or a failed USB
enumeration) yields "none"; a failed enumeration behaves exactly like an
empty one. -/
theorem check_device_status_usb_fallback
    (env : DiscoveryEnv)
    (hnos : env.available_ports = none ∨
      ∃ ports, env.available_ports = some ports ∧
        ∀ q ∈ ports, serialRecognized q = false) :
    (∀ pre rest d, env.usb_devices = some (pre ++ d :: rest) →
      (∀ q ∈ pre, usbRecognized q = false) → d.vendor_id ∈ recognizedVids →
      (check_device_status env).code = "missing_driver" ∧
      (check_device_status env).port_name = none ∧
      (check_device_status env).connection_type =
        some (if d.vendor_id == 0x303A then "native_usb" else "uart_bridge")) ∧
    ((env.usb_devices = none ∨
        ∃ ds, env.usb_devices = some ds ∧ ∀ q ∈ ds, usbRecognized q = false) →
      check_device_status env =
        { code := "none", message := "Disconnected", port_name := none,
          product_name := none, serial_number := none, vid_pid := none,
          connection_type := none }) ∧
    (∀ u, check_device_status ⟨none, u⟩ = check_device_status ⟨some [], u⟩) ∧
    (∀ a, check_device_status ⟨a, none⟩ = check_device_status ⟨a, some []⟩) := by
  have hser := check_device_status_serial_none env hnos
  refine ⟨?_, ?_, ?_, ?_⟩
  · intro pre rest d hu hpre hvd
    have hfind := (findUsb_append_skip pre (d :: rest) hpre).trans
      (findUsb_cons_hit d rest hvd)
    rw [hser, hu]
    simp [hfind]
  · intro h
    rw [hser]
    rcases h with h | ⟨ds, hd, hall⟩
    · rw [h]
    · simp only [hd, findUsb_eq_none ds hall]
  · intro u
    rfl
  · intro a
    cases a with
    | none => rfl
    | some ports =>
      cases hf : findSerial ports <;>
        simp [check_device_status, hf, findUsb]

/-- Concrete instance of C6: a CH340 bridge visible only on the raw USB
bus. -/
def rawDev : UsbDevice :=
  { vendor_id := 0x1A86, product_id := 0x7523,
    product_string := some "CH340", serial_number := none }

def discEnvC6 : DiscoveryEnv :=
  { available_ports := some [otherPort], usb_devices := some [rawDev] }

theorem check_device_status_usb_fallback_witness :
    (check_device_status discEnvC6).code = "missing_driver" ∧
    (check_device_status discEnvC6).port_name = none ∧
    (check_device_status discEnvC6).connection_type = some "uart_bridge" := by
  have h := (check_device_status_usb_fallback discEnvC6
    (Or.inr ⟨[otherPort], rfl, by decide⟩)).1 [] [] rawDev rfl
    (by decide) (by decide)
  refine ⟨h.1, h.2.1, ?_⟩
  rw [h.2.2]
  decide

/-! ## Claims about the chip probe client -/

/-- Claim C1: if opening the serial transport fails, or the bootloader
handshake (`Flasher::connect` with stub upload) fails, `connect_and_get_info`
returns a `ChipDetails` whose `error` field is a descriptive string and
whose every other field is `None`; these two steps are the only ones that
set `error`, so a set `error` implies every other field is absent. -/
theorem connect_and_get_info_fatal_errors
    (env : ProbeEnv) (port_name : String) :
    (∀ e, env.openNative = Except.error e →
      connect_and_get_info env port_name =
        { chip_model := none, mac_address := none, flash_size := none,
          features := none, crystal_frequency := none, chip_revision := none,
          error := some ("Serial Error: " ++ e) }) ∧
    (∀ e, env.openNative = Except.ok () →
      env.flasherConnect = Except.error e →
      connect_and_get_info env port_name =
        { chip_model := none, mac_address := none, flash_size := none,
          features := none, crystal_frequency := none, chip_revision := none,
          error := some ("Connect Error: " ++ e) }) ∧
    (∀ s, (connect_and_get_info env port_name).error = some s →
      (connect_and_get_info env port_name).chip_model = none ∧
      (connect_and_get_info env port_name).mac_address = none ∧
      (connect_and_get_info env port_name).flash_size = none ∧
      (connect_and_get_info env port_name).features = none ∧
      (connect_and_get_info env port_name).crystal_frequency = none ∧
      (connect_and_get_info env port_name).chip_revision = none) := by
  refine ⟨?_, ?_, ?_⟩
  · intro e h
    simp [connect_and_get_info, h]
  · intro e h1 h2
    simp [connect_and_get_info, h1, h2]
  · intro s hs
    cases ho : env.openNative with
    | error e => simp [connect_and_get_info, ho]
    | ok u =>
      cases u
      cases hc : env.flasherConnect with
      | error e => simp [connect_and_get_info, ho, hc]
      | ok f =>
        exfalso
        simp [connect_and_get_info, ho, hc] at hs

/-- Concrete instance of C1: a port that cannot be opened. -/
def probeEnvOpenFail : ProbeEnv :=
  { openNative := Except.error "busy",
    available_ports := [],
    flasherConnect := Except.error "unused" }

theorem connect_and_get_info_fatal_errors_witness :
    connect_and_get_info probeEnvOpenFail "COM5" =
      { chip_model := none, mac_address := none, flash_size := none,
        features := none, crystal_frequency := none, chip_revision := none,
        error := some "Serial Error: busy" } := by
  have h := (connect_and_get_info_fatal_errors probeEnvOpenFail "COM5").1
    "busy" rfl
  exact h

/-- Claim C3: once the open and the handshake both succeed, queries fail
independently per field: a failed device-info query leaves `mac_address`
and `features` both `None` while `chip_model` is still set; a failed
revision or crystal-frequency query likewise leaves only that field
absent; `error` is `None` in all such cases. -/
theorem connect_and_get_info_per_field_degradation
    (env : ProbeEnv) (port_name : String) (f : FlasherState)
    (ho : env.openNative = Except.ok ())
    (hc : env.flasherConnect = Except.ok f) :
    (connect_and_get_info env port_name).error = none ∧
    (connect_and_get_info env port_name).chip_model = some f.chipName ∧
    (∀ e, f.device_info = Except.error e →
      (connect_and_get_info env port_name).mac_address = none ∧
      (connect_and_get_info env port_name).features = none) ∧
    (∀ e, f.revision = Except.error e →
      (connect_and_get_info env port_name).chip_revision = none) ∧
    (∀ e, f.xtal_frequency = Except.error e →
      (connect_and_get_info env port_name).crystal_frequency = none) := by
  refine ⟨?_, ?_, ?_, ?_, ?_⟩
  · simp [connect_and_get_info, ho, hc]
  · simp [connect_and_get_info, ho, hc]
  · intro e h
    constructor <;> simp [connect_and_get_info, ho, hc, h]
  · intro e h
    simp [connect_and_get_info, ho, hc, h]
  · intro e h
    simp [connect_and_get_info, ho, hc, h]

/-- Concrete instance of C3: a successful handshake after which every
post-handshake query fails. -/
def flasherAllFail : FlasherState :=
  { chipName := "esp32c3", debugInfo := "Flasher",
    device_info := Except.error "no response",
    revision := Except.error "no response",
    xtal_frequency := Except.error "no response" }

def probeEnvQueriesFail : ProbeEnv :=
  { openNative := Except.ok (),
    available_ports := [],
    flasherConnect := Except.ok flasherAllFail }

theorem connect_and_get_info_per_field_degradation_witness :
    (connect_and_get_info probeEnvQueriesFail "COM5").error = none ∧
    (connect_and_get_info probeEnvQueriesFail "COM5").chip_model =
      some "esp32c3" ∧
    (connect_and_get_info probeEnvQueriesFail "COM5").mac_address = none ∧
    (connect_and_get_info probeEnvQueriesFail "COM5").features = none ∧
    (connect_and_get_info probeEnvQueriesFail "COM5").chip_revision = none ∧
    (connect_and_get_info probeEnvQueriesFail "COM5").crystal_frequency =
      none := by
  have h := connect_and_get_info_per_field_degradation probeEnvQueriesFail
    "COM5" flasherAllFail rfl rfl
  exact ⟨h.1, h.2.1, (h.2.2.1 "no response" rfl).1,
    (h.2.2.1 "no response" rfl).2, h.2.2.2.1 "no response" rfl,
    h.2.2.2.2 "no response" rfl⟩

/-- Concrete probe environments for the crystal-frequency behavior: one
where the query reports 40 and one where it fails. -/
def probeEnvXtalOk : ProbeEnv :=
  { openNative := Except.ok (),
    available_ports := [],
    flasherConnect := Except.ok
      { chipName := "esp32", debugInfo := "Flasher",
        device_info := Except.error "e",
        revision := Except.error "e",
        xtal_frequency := Except.ok 40 } }

def probeEnvXtalFail : ProbeEnv :=
  { openNative := Except.ok (),
    available_ports := [],
    flasherConnect := Except.ok
      { chipName := "esp32", debugInfo := "Flasher",
        device_info := Except.error "e",
        revision := Except.error "e",
        xtal_frequency := Except.error "e" } }

/-- Claim C5 (code bug): the probe's result is meant to carry a
`crystal_frequency` field — the record literal built by
`connect_and_get_info` fills one (decimal rendering on success, absent on
failure) — but the `ChipDetails` struct declared in `models.rs` omits that
field, so the program as written cannot compile: the declaration
contradicts the only function that builds the type. -/
theorem chip_details_crystal_frequency_bug :
    ("crystal_frequency" ∈ chipDetailsFieldsProbe ∧
      "crystal_frequency" ∉ chipDetailsFieldsModels) ∧
    (connect_and_get_info probeEnvXtalOk "COM5").crystal_frequency =
      some "40" ∧
    (connect_and_get_info probeEnvXtalFail "COM5").crystal_frequency =
      none := by
  refine ⟨by decide, ?_, ?_⟩ <;> rfl

/-! ## Claim about the erase operation -/

/-- Claim C7: `erase_flash` returns either the success message or an error
string whose distinct prefix names the failing phase — open ("Serial
Error"), handshake ("Connect Error") or erase ("Erase Error") — and it
returns success only after the erase command was acknowledged. -/
theorem erase_flash_phase_errors (env : EraseEnv) (port_name : String) :
    (∀ e, env.openNative = Except.error e →
      erase_flash env port_name = Except.error ("Serial Error: " ++ e)) ∧
    (∀ e, env.openNative = Except.ok () →
      env.flasherConnect = Except.error e →
      erase_flash env port_name = Except.error ("Connect Error: " ++ e)) ∧
    (∀ f e, env.openNative = Except.ok () →
      env.flasherConnect = Except.ok f →
      f.erase_flash = Except.error e →
      erase_flash env port_name = Except.error ("Erase Error: " ++ e)) ∧
    (∀ msg, erase_flash env port_name = Except.ok msg →
      msg = "Flash Memory Erased Successfully" ∧
      ∃ f, env.flasherConnect = Except.ok f ∧
        f.erase_flash = Except.ok ()) := by
  refine ⟨?_, ?_, ?_, ?_⟩
  · intro e h
    simp [erase_flash, h]
  · intro e h1 h2
    simp [erase_flash, h1, h2]
  · intro f e h1 h2 h3
    simp [erase_flash, h1, h2, h3]
  · intro msg hmsg
    cases ho : env.openNative with
    | error e => simp [erase_flash, ho] at hmsg
    | ok u =>
      cases u
      cases hc : env.flasherConnect with
      | error e => simp [erase_flash, ho, hc] at hmsg
      | ok f =>
        cases hf : f.erase_flash with
        | error e => simp [erase_flash, ho, hc, hf] at hmsg
        | ok v =>
          cases v
          simp [erase_flash, ho, hc, hf] at hmsg
          exact ⟨hmsg.symm, f, rfl, hf⟩

/-- Concrete erase environments: one failing at the open phase, one fully
successful. -/
def eraseEnvOpenFail : EraseEnv :=
  { openNative := Except.error "busy",
    available_ports := [],
    flasherConnect := Except.error "unused" }

def eraseEnvOk : EraseEnv :=
  { openNative := Except.ok (),
    available_ports := [],
    flasherConnect := Except.ok { erase_flash := Except.ok () } }

theorem erase_flash_phase_errors_witness :
    erase_flash eraseEnvOpenFail "COM5" =
      Except.error "Serial Error: busy" ∧
    erase_flash eraseEnvOk "COM5" =
      Except.ok "Flash Memory Erased Successfully" ∧
    (∃ f, eraseEnvOk.flasherConnect = Except.ok f ∧
      f.erase_flash = Except.ok ()) := by
  have h1 := (erase_flash_phase_errors eraseEnvOpenFail "COM5").1 "busy" rfl
  have h4 := (erase_flash_phase_errors eraseEnvOk "COM5").2.2.2
    "Flash Memory Erased Successfully" rfl
  exact ⟨h1, rfl, h4.2⟩

/-! ## Claims about the monitor session -/

/-- The loop's exit bit is exactly the negation of the run flag it observed
at the top of the iteration. -/
theorem loopIter_exited (name : String) (baud : Nat) (st : SerialState)
    (env : IterEnv) :
    (loopIter name baud st env).exited = !st.should_run := by
  unfold loopIter
  cases hr : st.should_run with
  | false => simp
  | true =>
    simp only [Bool.not_true, if_neg (by simp : ¬(true = false))]
    cases st.port with
    | some t =>
      cases env.read with
      | got n data =>
        by_cases hn : n > 0 <;> simp [hn]
      | timedOut => rfl
      | fatal =>
        cases env.reopen name baud <;> rfl
    | none =>
      cases env.reopen name baud <;> rfl

/-- Claim C4: the background loop exits exactly when it observes the run
flag false at the top of an iteration — never because of a transport
failure — and in that case does nothing else: no state change, no
notification, no sleep.  After `monitor_disconnect` (the only way the flag
goes false) the stored transport is already gone, so the very next
iteration exits with the transport released. -/
theorem monitor_loop_exit_only_on_flag (name : String) (baud : Nat)
    (st : SerialState) (env : IterEnv) :
    ((loopIter name baud st env).exited = true ↔ st.should_run = false) ∧
    (st.should_run = false →
      loopIter name baud st env =
        { state := st, exited := true, emitted := none, sleep := 0 }) ∧
    (loopIter name baud (monitor_disconnect st).1 env).exited = true ∧
    ((monitor_disconnect st).1).port = none := by
  refine ⟨?_, ?_, ?_, rfl⟩
  · rw [loopIter_exited]
    cases st.should_run <;> simp
  · intro h
    unfold loopIter
    simp [h]
  · rw [loopIter_exited]
    rfl

/-- Concrete instance of C4: a stopped session whose next iteration exits
untouched. -/
def stStopped : SerialState := { port := some ⟨1⟩, should_run := false }

def envIdle : IterEnv :=
  { read := ReadOutcome.timedOut, reopen := fun _ _ => none }

theorem monitor_loop_exit_only_on_flag_witness :
    loopIter "COM5" 115200 stStopped envIdle =
      { state := stStopped, exited := true, emitted := none, sleep := 0 } :=
  (monitor_loop_exit_only_on_flag "COM5" 115200 stStopped envIdle).2.1 rfl

/-- Claim C9: an iteration that starts with the run flag true and no stored
transport behaves exactly like one that hits a fatal read error: it backs
off the fixed 500 ms, reopens the same port at the same baud, and stores
the new transport on success — re-acquiring a transport without any read
error having occurred. -/
theorem monitor_loop_none_port_reconnect (name : String) (baud : Nat)
    (st : SerialState) (env : IterEnv) (t : Transport)
    (hrun : st.should_run = true) (hport : st.port = none) :
    loopIter name baud st env =
      loopIter name baud { st with port := some t }
        { env with read := ReadOutcome.fatal } ∧
    (loopIter name baud st env).sleep = 500 ∧
    (loopIter name baud st env).exited = false ∧
    (∀ t2, env.reopen name baud = some t2 →
      (loopIter name baud st env).state.port = some t2) ∧
    (env.reopen name baud = none →
      (loopIter name baud st env).state = st) := by
  obtain ⟨p, r⟩ := st
  simp only at hrun hport
  subst hrun
  subst hport
  refine ⟨?_, ?_, ?_, ?_, ?_⟩ <;>
    simp [loopIter] <;>
    cases hro : env.reopen name baud <;>
    simp [hro]

/-- Concrete instance of C9: a running session with no transport whose
reopen succeeds. -/
def stNonePort : SerialState := { port := none, should_run := true }

def envReopenOk : IterEnv :=
  { read := ReadOutcome.timedOut, reopen := fun _ _ => some ⟨7⟩ }

theorem monitor_loop_none_port_reconnect_witness :
    loopIter "COM5" 115200 stNonePort envReopenOk =
      loopIter "COM5" 115200 { port := some ⟨1⟩, should_run := true }
        { envReopenOk with read := ReadOutcome.fatal } ∧
    (loopIter "COM5" 115200 stNonePort envReopenOk).sleep = 500 ∧
    (loopIter "COM5" 115200 stNonePort envReopenOk).exited = false ∧
    (loopIter "COM5" 115200 stNonePort envReopenOk).state.port =
      some ⟨7⟩ := by
  have h := monitor_loop_none_port_reconnect "COM5" 115200 stNonePort
    envReopenOk ⟨1⟩ rfl rfl
  exact ⟨h.1, h.2.1, h.2.2.1, h.2.2.2.1 ⟨7⟩ rfl⟩

/-- Claim C8: `monitor_send` fails with "Not connected" — leaving the state
untouched and writing nothing — exactly when no transport is stored; with a
transport present it hands `write_all` the data with the CR-LF line
terminator appended, again leaving the stored state unchanged. -/
theorem monitor_send_not_connected (st : SerialState) (data : String)
    (w : Except String Unit) :
    (monitor_send st data w =
        (st, Except.error "Not connected", none) ↔ st.port = none) ∧
    (∀ t, st.port = some t →
      (monitor_send st data w).2.2 = some (data ++ "\r\n") ∧
      (monitor_send st data w).1 = st) := by
  constructor
  · constructor
    · intro h
      cases hp : st.port with
      | none => rfl
      | some t =>
        cases w with
        | ok u => simp [monitor_send, hp] at h
        | error e => simp [monitor_send, hp] at h
    · intro h
      simp [monitor_send, h]
  · intro t ht
    cases w with
    | ok u => simp [monitor_send, ht]
    | error e => simp [monitor_send, ht]

theorem monitor_send_not_connected_witness :
    monitor_send { port := none, should_run := false } "hello"
        (Except.ok ()) =
      ({ port := none, should_run := false },
        Except.error "Not connected", none) ∧
    (monitor_send { port := some ⟨3⟩, should_run := true } "hello"
        (Except.ok ())).2.2 = some "hello\r\n" := by
  refine ⟨(monitor_send_not_connected _ "hello" _).1.mpr rfl, ?_⟩
  have h := (monitor_send_not_connected
    { port := some ⟨3⟩, should_run := true } "hello" (Except.ok ())).2
    ⟨3⟩ rfl
  exact h.1

/-- Claim C10: `monitor_disconnect` always succeeds — for every prior state
it returns the success acknowledgement, leaves the run flag false and the
stored transport `None`, and is idempotent. -/
theorem monitor_disconnect_idempotent (st : SerialState) :
    monitor_disconnect st =
      ({ port := none, should_run := false }, Except.ok "Disconnected") ∧
    ((monitor_disconnect st).1).should_run = false ∧
    ((monitor_disconnect st).1).port = none ∧
    monitor_disconnect ((monitor_disconnect st).1) =
      monitor_disconnect st := by
  exact ⟨rfl, rfl, rfl, rfl⟩
